import Mathlib

/-! Shallow embedding of the substrate-client repository: the SCALE-style
variant codec (NodeCertification, FarmCertification, Role, DeletedState,
ContractState, ContractType and the Option wrappers), the version-dispatched
record decoders for Entity, Node, Farm and Contract, the derived-index
lookups, and the creation paths for nodes and rent contracts.  Byte streams
are lists of byte values; decoders consume a stream and return the decoded
value together with the unconsumed remainder, or an error message. -/

namespace Substrate

/-- Byte streams are lists of byte values (each a Nat below 256 on real wires). -/
abbrev Bytes := List Nat

/-- A Go string, modelled by its raw byte sequence (Go strings are arbitrary bytes). -/
abbrev GoStr := List Nat

/-- Reading one byte from the stream; fails on an exhausted stream, as the
scale decoder's ReadOneByte does. -/
def readOneByte : Bytes → Except String (Nat × Bytes)
  | [] => .error "EOF"
  | b :: s => .ok (b, s)

/-- Reading exactly n bytes from the stream, failing if fewer remain. -/
def readN (n : Nat) (s : Bytes) : Except String (Bytes × Bytes) :=
  if n ≤ s.length then .ok (s.take n, s.drop n) else .error "EOF"

/-- Sequencing of decoders with error propagation, mirroring the Go pattern
of decoding a field and returning early on error. -/
def andThen (r : Except String (α × Bytes)) (f : α → Bytes → Except String (β × Bytes)) :
    Except String (β × Bytes) :=
  match r with
  | .error e => .error e
  | .ok (a, s) => f a s

/-- Little-endian decode of a 32-bit unsigned integer (types.U32). -/
def decodeU32 : Bytes → Except String (Nat × Bytes)
  | b0 :: b1 :: b2 :: b3 :: s => .ok (b0 + 256 * b1 + 65536 * b2 + 16777216 * b3, s)
  | _ => .error "EOF"

/-- Little-endian encode of a 32-bit unsigned integer (types.U32). -/
def encodeU32 (v : Nat) : Bytes :=
  [v % 256, v / 256 % 256, v / 65536 % 256, v / 16777216 % 256]

/-- Little-endian decode of a 64-bit unsigned integer (types.U64). -/
def decodeU64 : Bytes → Except String (Nat × Bytes)
  | b0 :: b1 :: b2 :: b3 :: b4 :: b5 :: b6 :: b7 :: s =>
      .ok (b0 + 256 * b1 + 65536 * b2 + 16777216 * b3 + 4294967296 * b4 +
           1099511627776 * b5 + 281474976710656 * b6 + 72057594037927936 * b7, s)
  | _ => .error "EOF"

/-- Little-endian encode of a 64-bit unsigned integer (types.U64). -/
def encodeU64 (v : Nat) : Bytes :=
  [v % 256, v / 256 % 256, v / 65536 % 256, v / 16777216 % 256,
   v / 4294967296 % 256, v / 1099511627776 % 256, v / 281474976710656 % 256,
   v / 72057594037927936 % 256]

/-- Scale boolean decode: one byte, 0 or 1, anything else is a decode error. -/
def decodeBool : Bytes → Except String (Bool × Bytes)
  | [] => .error "EOF"
  | 0 :: s => .ok (false, s)
  | 1 :: s => .ok (true, s)
  | _ :: _ => .error "invalid bool byte"

/-- Little-endian byte expansion of a natural number, least significant first. -/
def natToBytesLE (n : Nat) : Bytes :=
  if h : n = 0 then []
  else (n % 256) :: natToBytesLE (n / 256)
termination_by n
decreasing_by exact Nat.div_lt_self (Nat.pos_of_ne_zero h) (by omega)

/-- Little-endian recombination of bytes into a natural number. -/
def fromBytesLE (bs : Bytes) : Nat :=
  bs.foldr (fun b acc => b + 256 * acc) 0

/-- Scale compact (general) integer encoding, used for string and sequence
lengths: two low bits of the first byte select single-byte, two-byte,
four-byte or big-integer mode. -/
def encodeCompact (n : Nat) : Bytes :=
  if n ≤ 63 then [n * 4]
  else if n ≤ 16383 then [(n * 4 + 1) % 256, (n * 4 + 1) / 256]
  else if n ≤ 1073741823 then
    [(n * 4 + 2) % 256, (n * 4 + 2) / 256 % 256,
     (n * 4 + 2) / 65536 % 256, (n * 4 + 2) / 16777216 % 256]
  else
    (((natToBytesLE n).length - 4) * 4 + 3) :: natToBytesLE n

/-- Scale compact integer decoding, the inverse mode dispatch of encodeCompact. -/
def decodeCompact : Bytes → Except String (Nat × Bytes)
  | [] => .error "EOF"
  | b :: s =>
    if b % 4 = 0 then .ok (b / 4, s)
    else if b % 4 = 1 then
      match s with
      | b2 :: s2 => .ok ((b + 256 * b2) / 4, s2)
      | [] => .error "EOF"
    else if b % 4 = 2 then
      match s with
      | b2 :: b3 :: b4 :: s2 => .ok ((b + 256 * b2 + 65536 * b3 + 16777216 * b4) / 4, s2)
      | _ => .error "EOF"
    else
      match readN (b / 4 + 4) s with
      | .error e => .error e
      | .ok (chunk, s2) => .ok (fromBytesLE chunk, s2)

/-- Scale string/byte-sequence decode: compact length then that many raw bytes. -/
def decodeStr (s : Bytes) : Except String (GoStr × Bytes) :=
  andThen (decodeCompact s) fun n s1 =>
  andThen (readN n s1) fun bs s2 =>
  .ok (bs, s2)

/-- Scale string/byte-sequence encode: compact length then the raw bytes. -/
def encodeStr (str : GoStr) : Bytes :=
  encodeCompact str.length ++ str

/-- Concatenation of the encodings of the elements of a list. -/
def concatMap (f : α → Bytes) : List α → Bytes
  | [] => []
  | x :: xs => f x ++ concatMap f xs

/-- Decoding a known number of consecutive elements. -/
def decodeList (dec : Bytes → Except String (α × Bytes)) : Nat → Bytes → Except String (List α × Bytes)
  | 0, s => .ok ([], s)
  | n + 1, s =>
    andThen (dec s) fun x s1 =>
    andThen (decodeList dec n s1) fun xs s2 =>
    .ok (x :: xs, s2)

/-- Scale vector decode: compact element count then the elements in order. -/
def decodeVec (dec : Bytes → Except String (α × Bytes)) (s : Bytes) :
    Except String (List α × Bytes) :=
  andThen (decodeCompact s) fun n s1 => decodeList dec n s1

/-- Scale vector encode: compact element count then each element's encoding. -/
def encodeVec (enc : α → Bytes) (xs : List α) : Bytes :=
  encodeCompact xs.length ++ concatMap enc xs

/-- NodeCertification is a substrate enum (farm.go). -/
structure NodeCertification where
  IsDiy : Bool
  IsCertified : Bool
deriving DecidableEq

/-- Decode implementation for the enum type (farm.go lines 18-34). -/
def NodeCertification.Decode (s : Bytes) : Except String (NodeCertification × Bytes) :=
  andThen (readOneByte s) fun b s1 =>
  if b = 0 then .ok ({ IsDiy := true, IsCertified := false }, s1)
  else if b = 1 then .ok ({ IsDiy := false, IsCertified := true }, s1)
  else .error ("unknown NodeCertification value " ++ toString b)

/-- Encode implementation for the enum type (farm.go lines 37-45): pushes the
discriminant byte of the first set flag, and nothing when no flag is set. -/
def NodeCertification.Encode (p : NodeCertification) : Bytes :=
  if p.IsDiy then [0]
  else if p.IsCertified then [1]
  else []

/-- FarmCertification is a substrate enum (farm.go). -/
structure FarmCertification where
  isNotCertified : Bool
  isGold : Bool
deriving DecidableEq

/-- Decode implementation for the enum type (farm.go lines 54-70). -/
def FarmCertification.Decode (s : Bytes) : Except String (FarmCertification × Bytes) :=
  andThen (readOneByte s) fun b s1 =>
  if b = 0 then .ok ({ isNotCertified := true, isGold := false }, s1)
  else if b = 1 then .ok ({ isNotCertified := false, isGold := true }, s1)
  else .error "unknown FarmCertification value"

/-- Encode implementation for the enum type (farm.go lines 73-81). -/
def FarmCertification.Encode (p : FarmCertification) : Bytes :=
  if p.isNotCertified then [0]
  else if p.isGold then [1]
  else []

/-- Role type (node file). -/
structure Role where
  IsNode : Bool
  IsGateway : Bool
deriving DecidableEq

/-- Decode implementation for the enum type (node file lines 33-49). -/
def Role.Decode (s : Bytes) : Except String (Role × Bytes) :=
  andThen (readOneByte s) fun b s1 =>
  if b = 0 then .ok ({ IsNode := true, IsGateway := false }, s1)
  else if b = 1 then .ok ({ IsNode := false, IsGateway := true }, s1)
  else .error "unknown CertificateType value"

/-- Encode implementation (node file lines 52-60). -/
def Role.Encode (r : Role) : Bytes :=
  if r.IsNode then [0]
  else if r.IsGateway then [1]
  else []

/-- DeletedState enum (contract file). -/
structure DeletedState where
  IsCanceledByUser : Bool
  IsOutOfFunds : Bool
deriving DecidableEq

/-- Decode implementation for the enum type (contract file lines 17-34): byte 2
is accepted with no flag set, by the empty case 2 of the Go switch. -/
def DeletedState.Decode (s : Bytes) : Except String (DeletedState × Bytes) :=
  andThen (readOneByte s) fun b s1 =>
  if b = 0 then .ok ({ IsCanceledByUser := true, IsOutOfFunds := false }, s1)
  else if b = 1 then .ok ({ IsCanceledByUser := false, IsOutOfFunds := true }, s1)
  else if b = 2 then .ok ({ IsCanceledByUser := false, IsOutOfFunds := false }, s1)
  else .error "unknown deleted state value"

/-- Encode implementation (contract file lines 37-44). -/
def DeletedState.Encode (r : DeletedState) : Bytes :=
  if r.IsCanceledByUser then [0]
  else if r.IsOutOfFunds then [1]
  else []

/-- ContractState enum (contract file). -/
structure ContractState where
  IsCreated : Bool
  IsDeleted : Bool
  AsDeleted : DeletedState
  IsGracePeriod : Bool
  AsGracePeriodBlockNumber : Nat
deriving DecidableEq

/-- Decode implementation for the enum type (contract file lines 56-80); the
nested DeletedState decode error is wrapped as in the Go errors.Wrap call. -/
def ContractState.Decode (s : Bytes) : Except String (ContractState × Bytes) :=
  andThen (readOneByte s) fun b s1 =>
  if b = 0 then
    .ok ({ IsCreated := true, IsDeleted := false, AsDeleted := ⟨false, false⟩,
           IsGracePeriod := false, AsGracePeriodBlockNumber := 0 }, s1)
  else if b = 1 then
    match DeletedState.Decode s1 with
    | .error e => .error ("failed to get deleted state: " ++ e)
    | .ok (d, s2) =>
      .ok ({ IsCreated := false, IsDeleted := true, AsDeleted := d,
             IsGracePeriod := false, AsGracePeriodBlockNumber := 0 }, s2)
  else if b = 2 then
    match decodeU64 s1 with
    | .error e => .error ("failed to get grace period: " ++ e)
    | .ok (n, s2) =>
      .ok ({ IsCreated := false, IsDeleted := false, AsDeleted := ⟨false, false⟩,
             IsGracePeriod := true, AsGracePeriodBlockNumber := n }, s2)
  else .error "unknown ContractState value"

/-- Encode implementation (contract file lines 83-99). -/
def ContractState.Encode (r : ContractState) : Bytes :=
  if r.IsCreated then [0]
  else if r.IsDeleted then 1 :: DeletedState.Encode r.AsDeleted
  else if r.IsGracePeriod then 2 :: encodeU64 r.AsGracePeriodBlockNumber
  else []

/-- PublicIP structure (farm.go). -/
structure PublicIP where
  IP : GoStr
  Gateway : GoStr
  ContractID : Nat
deriving DecidableEq

/-- Field-by-field scale decode of PublicIP. -/
def PublicIP.Decode (s : Bytes) : Except String (PublicIP × Bytes) :=
  andThen (decodeStr s) fun ip s1 =>
  andThen (decodeStr s1) fun gw s2 =>
  andThen (decodeU64 s2) fun cid s3 =>
  .ok ({ IP := ip, Gateway := gw, ContractID := cid }, s3)

/-- Field-by-field scale encode of PublicIP. -/
def PublicIP.Encode (p : PublicIP) : Bytes :=
  encodeStr p.IP ++ encodeStr p.Gateway ++ encodeU64 p.ContractID

/-- NodeContract payload (contract file). -/
structure NodeContract where
  Node : Nat
  DeploymentData : GoStr
  DeploymentHash : GoStr
  PublicIPsCount : Nat
  PublicIPs : List PublicIP
deriving DecidableEq

/-- Field-by-field scale decode of NodeContract. -/
def NodeContract.Decode (s : Bytes) : Except String (NodeContract × Bytes) :=
  andThen (decodeU32 s) fun node s1 =>
  andThen (decodeStr s1) fun dd s2 =>
  andThen (decodeStr s2) fun dh s3 =>
  andThen (decodeU32 s3) fun cnt s4 =>
  andThen (decodeVec PublicIP.Decode s4) fun ips s5 =>
  .ok ({ Node := node, DeploymentData := dd, DeploymentHash := dh,
         PublicIPsCount := cnt, PublicIPs := ips }, s5)

/-- Field-by-field scale encode of NodeContract. -/
def NodeContract.Encode (c : NodeContract) : Bytes :=
  encodeU32 c.Node ++ encodeStr c.DeploymentData ++ encodeStr c.DeploymentHash ++
  encodeU32 c.PublicIPsCount ++ encodeVec PublicIP.Encode c.PublicIPs

/-- NameContract payload (contract file). -/
structure NameContract where
  Name : GoStr
deriving DecidableEq

/-- Scale decode of NameContract. -/
def NameContract.Decode (s : Bytes) : Except String (NameContract × Bytes) :=
  andThen (decodeStr s) fun n s1 => .ok ({ Name := n }, s1)

/-- Scale encode of NameContract. -/
def NameContract.Encode (c : NameContract) : Bytes :=
  encodeStr c.Name

/-- RentContract payload (contract file). -/
structure RentContract where
  Node : Nat
deriving DecidableEq

/-- Scale decode of RentContract. -/
def RentContract.Decode (s : Bytes) : Except String (RentContract × Bytes) :=
  andThen (decodeU32 s) fun n s1 => .ok ({ Node := n }, s1)

/-- Scale encode of RentContract. -/
def RentContract.Encode (c : RentContract) : Bytes :=
  encodeU32 c.Node

/-- ContractType enum with payloads (contract file). -/
structure ContractType where
  IsNodeContract : Bool
  NodeContract : NodeContract
  IsNameContract : Bool
  NameContract : NameContract
  IsRentContract : Bool
  RentContract : RentContract
deriving DecidableEq

/-- Decode implementation for the enum type (contract file lines 127-154). -/
def ContractType.Decode (s : Bytes) : Except String (ContractType × Bytes) :=
  andThen (readOneByte s) fun b s1 =>
  if b = 0 then
    andThen (NodeContract.Decode s1) fun nc s2 =>
    .ok ({ IsNodeContract := true, NodeContract := nc,
           IsNameContract := false, NameContract := ⟨[]⟩,
           IsRentContract := false, RentContract := ⟨0⟩ }, s2)
  else if b = 1 then
    andThen (NameContract.Decode s1) fun nc s2 =>
    .ok ({ IsNodeContract := false, NodeContract := ⟨0, [], [], 0, []⟩,
           IsNameContract := true, NameContract := nc,
           IsRentContract := false, RentContract := ⟨0⟩ }, s2)
  else if b = 2 then
    andThen (RentContract.Decode s1) fun rc s2 =>
    .ok ({ IsNodeContract := false, NodeContract := ⟨0, [], [], 0, []⟩,
           IsNameContract := false, NameContract := ⟨[]⟩,
           IsRentContract := true, RentContract := rc }, s2)
  else .error "unknown contract type value"

/-- Encode implementation (contract file lines 157-184). -/
def ContractType.Encode (r : ContractType) : Bytes :=
  if r.IsNodeContract then 0 :: NodeContract.Encode r.NodeContract
  else if r.IsNameContract then 1 :: NameContract.Encode r.NameContract
  else if r.IsRentContract then 2 :: RentContract.Encode r.RentContract
  else []

/-- Resources type (node file). -/
structure Resources where
  HRU : Nat
  SRU : Nat
  CRU : Nat
  MRU : Nat
deriving DecidableEq

/-- Field-by-field scale decode of Resources. -/
def Resources.Decode (s : Bytes) : Except String (Resources × Bytes) :=
  andThen (decodeU64 s) fun h s1 =>
  andThen (decodeU64 s1) fun sr s2 =>
  andThen (decodeU64 s2) fun c s3 =>
  andThen (decodeU64 s3) fun m s4 =>
  .ok ({ HRU := h, SRU := sr, CRU := c, MRU := m }, s4)

/-- Location type (node file). -/
structure Location where
  Longitude : GoStr
  Latitude : GoStr
deriving DecidableEq

/-- Field-by-field scale decode of Location. -/
def Location.Decode (s : Bytes) : Except String (Location × Bytes) :=
  andThen (decodeStr s) fun lo s1 =>
  andThen (decodeStr s1) fun la s2 =>
  .ok ({ Longitude := lo, Latitude := la }, s2)

/-- PublicConfig type (node file). -/
structure PublicConfig where
  IPv4 : GoStr
  IPv6 : GoStr
  GWv4 : GoStr
  GWv6 : GoStr
  Domain : GoStr
deriving DecidableEq

/-- Field-by-field scale decode of PublicConfig. -/
def PublicConfig.Decode (s : Bytes) : Except String (PublicConfig × Bytes) :=
  andThen (decodeStr s) fun a s1 =>
  andThen (decodeStr s1) fun b s2 =>
  andThen (decodeStr s2) fun c s3 =>
  andThen (decodeStr s3) fun d s4 =>
  andThen (decodeStr s4) fun e s5 =>
  .ok ({ IPv4 := a, IPv6 := b, GWv4 := c, GWv6 := d, Domain := e }, s5)

/-- OptionPublicConfig type (node file). -/
structure OptionPublicConfig where
  HasValue : Bool
  AsValue : PublicConfig
deriving DecidableEq

/-- Decode implementation (node file lines 96-111). -/
def OptionPublicConfig.Decode (s : Bytes) : Except String (OptionPublicConfig × Bytes) :=
  andThen (readOneByte s) fun i s1 =>
  if i = 0 then .ok ({ HasValue := false, AsValue := ⟨[], [], [], [], []⟩ }, s1)
  else if i = 1 then
    andThen (PublicConfig.Decode s1) fun v s2 =>
    .ok ({ HasValue := true, AsValue := v }, s2)
  else .error "unknown value for Option"

/-- Interface type (node file). -/
structure Interface where
  Name : GoStr
  Mac : GoStr
  IPs : List GoStr
deriving DecidableEq

/-- Field-by-field scale decode of Interface. -/
def Interface.Decode (s : Bytes) : Except String (Interface × Bytes) :=
  andThen (decodeStr s) fun n s1 =>
  andThen (decodeStr s1) fun m s2 =>
  andThen (decodeVec decodeStr s2) fun ips s3 =>
  .ok ({ Name := n, Mac := m, IPs := ips }, s3)

/-- Modelled from the spec: the CertificationType referenced by the Node
struct is defined in a repository file that is not under src/; per the
spec's discriminant table it is a two-way variant with mapping
0 maps to diy and 1 maps to certified, shaped like the other enums. -/
structure CertificationType where
  IsDiy : Bool
  IsCertified : Bool
deriving DecidableEq

/-- Modelled from the spec: decode of CertificationType, one discriminant
byte with the table 0 maps to diy, 1 maps to certified, else a decode error. -/
def CertificationType.Decode (s : Bytes) : Except String (CertificationType × Bytes) :=
  andThen (readOneByte s) fun b s1 =>
  if b = 0 then .ok ({ IsDiy := true, IsCertified := false }, s1)
  else if b = 1 then .ok ({ IsDiy := false, IsCertified := true }, s1)
  else .error "unknown CertificationType value"

/-- Node type (node file): a versioned record, version byte first. -/
structure Node where
  Version : Nat
  ID : Nat
  FarmID : Nat
  TwinID : Nat
  Resources : Resources
  Location : Location
  Country : GoStr
  City : GoStr
  PublicConfig : OptionPublicConfig
  Created : Nat
  FarmingPolicy : Nat
  Interfaces : List Interface
  CertificationType : CertificationType
deriving DecidableEq

/-- Structural scale decode of a Node record, fields in declaration order,
the embedded Versioned version byte first. -/
def Node.Decode (s : Bytes) : Except String (Node × Bytes) :=
  andThen (readOneByte s) fun ver s1 =>
  andThen (decodeU32 s1) fun id s2 =>
  andThen (decodeU32 s2) fun farm s3 =>
  andThen (decodeU32 s3) fun twin s4 =>
  andThen (Resources.Decode s4) fun res s5 =>
  andThen (Location.Decode s5) fun loc s6 =>
  andThen (decodeStr s6) fun country s7 =>
  andThen (decodeStr s7) fun city s8 =>
  andThen (OptionPublicConfig.Decode s8) fun pc s9 =>
  andThen (decodeU64 s9) fun created s10 =>
  andThen (decodeU32 s10) fun fp s11 =>
  andThen (decodeVec Interface.Decode s11) fun ifs s12 =>
  andThen (CertificationType.Decode s12) fun ct s13 =>
  .ok ({ Version := ver, ID := id, FarmID := farm, TwinID := twin,
         Resources := res, Location := loc, Country := country, City := city,
         PublicConfig := pc, Created := created, FarmingPolicy := fp,
         Interfaces := ifs, CertificationType := ct }, s13)

/-- OptionU64 (external scale library type): standard scale Option of a U64. -/
structure OptionU64 where
  HasValue : Bool
  AsValue : Nat
deriving DecidableEq

/-- Decode of the external scale library OptionU64: tag byte 0 or 1 then payload. -/
def OptionU64.Decode (s : Bytes) : Except String (OptionU64 × Bytes) :=
  andThen (readOneByte s) fun i s1 =>
  if i = 0 then .ok ({ HasValue := false, AsValue := 0 }, s1)
  else if i = 1 then
    andThen (decodeU64 s1) fun v s2 => .ok ({ HasValue := true, AsValue := v }, s2)
  else .error "unknown value for Option"

/-- OptionU32 (external scale library type): standard scale Option of a U32. -/
structure OptionU32 where
  HasValue : Bool
  AsValue : Nat
deriving DecidableEq

/-- Decode of the external scale library OptionU32: tag byte 0 or 1 then payload. -/
def OptionU32.Decode (s : Bytes) : Except String (OptionU32 × Bytes) :=
  andThen (readOneByte s) fun i s1 =>
  if i = 0 then .ok ({ HasValue := false, AsValue := 0 }, s1)
  else if i = 1 then
    andThen (decodeU32 s1) fun v s2 => .ok ({ HasValue := true, AsValue := v }, s2)
  else .error "unknown value for Option"

/-- FarmingPolicyLimit type (farm.go). -/
structure FarmingPolicyLimit where
  FarmingPolicyID : Nat
  Cu : OptionU64
  Su : OptionU64
  End : OptionU64
  NodeCount : OptionU32
  NodeCertification : Bool
deriving DecidableEq

/-- Field-by-field scale decode of FarmingPolicyLimit. -/
def FarmingPolicyLimit.Decode (s : Bytes) : Except String (FarmingPolicyLimit × Bytes) :=
  andThen (decodeU32 s) fun fpid s1 =>
  andThen (OptionU64.Decode s1) fun cu s2 =>
  andThen (OptionU64.Decode s2) fun su s3 =>
  andThen (OptionU64.Decode s3) fun en s4 =>
  andThen (OptionU32.Decode s4) fun nc s5 =>
  andThen (decodeBool s5) fun cert s6 =>
  .ok ({ FarmingPolicyID := fpid, Cu := cu, Su := su, End := en,
         NodeCount := nc, NodeCertification := cert }, s6)

/-- OptionFarmingPolicyLimit type (farm.go). -/
structure OptionFarmingPolicyLimit where
  HasValue : Bool
  AsValue : FarmingPolicyLimit
deriving DecidableEq

/-- Decode implementation (farm.go lines 130-145). -/
def OptionFarmingPolicyLimit.Decode (s : Bytes) : Except String (OptionFarmingPolicyLimit × Bytes) :=
  andThen (readOneByte s) fun i s1 =>
  if i = 0 then
    .ok ({ HasValue := false,
           AsValue := ⟨0, ⟨false, 0⟩, ⟨false, 0⟩, ⟨false, 0⟩, ⟨false, 0⟩, false⟩ }, s1)
  else if i = 1 then
    andThen (FarmingPolicyLimit.Decode s1) fun v s2 =>
    .ok ({ HasValue := true, AsValue := v }, s2)
  else .error "unknown value for Option"

/-- Farm type (farm.go): a versioned record, version byte first. -/
structure Farm where
  Version : Nat
  ID : Nat
  Name : GoStr
  TwinID : Nat
  PricingPolicyID : Nat
  CertificationType : FarmCertification
  PublicIPs : List PublicIP
  DedicatedFarm : Bool
  FarmingPoliciesLimit : OptionFarmingPolicyLimit
deriving DecidableEq

/-- Structural scale decode of a Farm record, fields in declaration order. -/
def Farm.Decode (s : Bytes) : Except String (Farm × Bytes) :=
  andThen (readOneByte s) fun ver s1 =>
  andThen (decodeU32 s1) fun id s2 =>
  andThen (decodeStr s2) fun name s3 =>
  andThen (decodeU32 s3) fun twin s4 =>
  andThen (decodeU32 s4) fun ppid s5 =>
  andThen (FarmCertification.Decode s5) fun cert s6 =>
  andThen (decodeVec PublicIP.Decode s6) fun ips s7 =>
  andThen (decodeBool s7) fun ded s8 =>
  andThen (OptionFarmingPolicyLimit.Decode s8) fun lim s9 =>
  .ok ({ Version := ver, ID := id, Name := name, TwinID := twin,
         PricingPolicyID := ppid, CertificationType := cert, PublicIPs := ips,
         DedicatedFarm := ded, FarmingPoliciesLimit := lim }, s9)

/-- Entity type (entity.go): a versioned record, version byte first; the
Account field is a 32-byte AccountID. -/
structure Entity where
  Version : Nat
  ID : Nat
  Name : GoStr
  Account : Bytes
  Country : GoStr
  City : GoStr
deriving DecidableEq

/-- Structural scale decode of an Entity record, fields in declaration order. -/
def Entity.Decode (s : Bytes) : Except String (Entity × Bytes) :=
  andThen (readOneByte s) fun ver s1 =>
  andThen (decodeU32 s1) fun id s2 =>
  andThen (decodeStr s2) fun name s3 =>
  andThen (readN 32 s3) fun account s4 =>
  andThen (decodeStr s4) fun country s5 =>
  andThen (decodeStr s5) fun city s6 =>
  .ok ({ Version := ver, ID := id, Name := name, Account := account,
         Country := country, City := city }, s6)

/-- Contract structure (contract file): versioned record with state, IDs and
the contract type payload. -/
structure Contract where
  Version : Nat
  State : ContractState
  ContractID : Nat
  TwinID : Nat
  ContractType : ContractType
deriving DecidableEq

/-- Structural scale decode of a Contract record, fields in declaration order. -/
def Contract.Decode (s : Bytes) : Except String (Contract × Bytes) :=
  andThen (readOneByte s) fun ver s1 =>
  andThen (ContractState.Decode s1) fun st s2 =>
  andThen (decodeU64 s2) fun cid s3 =>
  andThen (decodeU32 s3) fun twin s4 =>
  andThen (ContractType.Decode s4) fun ct s5 =>
  .ok ({ Version := ver, State := st, ContractID := cid, TwinID := twin,
         ContractType := ct }, s5)

/-- The error kinds surfaced by the fetch and submit paths: ErrNotFound,
ErrUnknownVersion, decode failures, and other wrapped errors. -/
inductive SubErr where
  | notFound
  | unknownVersion
  | decodeError (msg : String)
  | other (msg : String)
deriving DecidableEq

/-- Modelled from the spec: getVersion lives in a repository file that is not
under src/; per the spec the first byte of a nonempty buffer is the schema
version, and reading it from an empty buffer is a decode failure. -/
def getVersion : Bytes → Except String Nat
  | [] => .error "EOF"
  | v :: _ => .ok v

/-- GetEntity decode pipeline (entity.go lines 39-59) as a function of the
raw storage bytes: empty buffer is NotFound, version 1 is the only
supported version, structural decode otherwise. -/
def GetEntity (raw : Bytes) : Except SubErr Entity :=
  if raw.length = 0 then .error .notFound
  else
    match getVersion raw with
    | .error e => .error (.decodeError e)
    | .ok version =>
      if version = 1 then
        match Entity.Decode raw with
        | .error e => .error (.decodeError ("failed to load object: " ++ e))
        | .ok (entity, _) => .ok entity
      else .error .unknownVersion

/-- getNode decode pipeline (node file lines 182-213) as a function of the
raw storage bytes: empty buffer is NotFound, versions 0, 1 and 2 share the
current layout, any other version is UnknownVersion. -/
def getNode (raw : Bytes) : Except SubErr Node :=
  if raw.length = 0 then .error .notFound
  else
    match getVersion raw with
    | .error e => .error (.decodeError e)
    | .ok version =>
      if version = 0 ∨ version = 1 ∨ version = 2 then
        match Node.Decode raw with
        | .error e => .error (.decodeError ("failed to load object: " ++ e))
        | .ok (node, _) => .ok node
      else .error .unknownVersion

/-- GetFarm decode pipeline (farm.go lines 175-199) as a function of the raw
storage bytes: empty buffer is NotFound, versions 1, 2 and 3 share the
current layout, any other version is UnknownVersion. -/
def GetFarm (raw : Bytes) : Except SubErr Farm :=
  if raw.length = 0 then .error .notFound
  else
    match getVersion raw with
    | .error e => .error (.decodeError e)
    | .ok version =>
      if version = 1 ∨ version = 2 ∨ version = 3 then
        match Farm.Decode raw with
        | .error e => .error (.decodeError ("failed to load object: " ++ e))
        | .ok (farm, _) => .ok farm
      else .error .unknownVersion

/-- getContract decode pipeline (contract file lines 462-478) as a function
of the raw storage bytes: empty buffer is NotFound, and the structural
decode runs directly with no version dispatch. -/
def getContract (raw : Bytes) : Except SubErr Contract :=
  if raw.length = 0 then .error .notFound
  else
    match Contract.Decode raw with
    | .error e => .error (.decodeError ("failed to load object: " ++ e))
    | .ok (contract, _) => .ok contract

/-- GetNodeByTwinID (node file lines 137-161) as a function of the derived
index storage cell: the decoded target stays at its zero value when the key
is absent, and absence or a zero identifier is NotFound. -/
def GetNodeByTwinID (stored : Option Nat) : Except SubErr Nat :=
  let ok := stored.isSome
  let id := stored.getD 0
  if ok = false ∨ id = 0 then .error .notFound else .ok id

/-- GetContractWithHash (contract file lines 378-407) as a function of the
derived index storage cell: the presence flag is discarded by the Go code,
so only a zero identifier (which absence also yields) maps to NotFound. -/
def GetContractWithHash (stored : Option Nat) : Except SubErr Nat :=
  let contract := stored.getD 0
  if contract = 0 then .error .notFound else .ok contract

/-- GetContractIDByNameRegistration (contract file lines 410-435) as a
function of the derived index storage cell, same shape as
GetContractWithHash. -/
def GetContractIDByNameRegistration (stored : Option Nat) : Except SubErr Nat :=
  let contract := stored.getD 0
  if contract = 0 then .error .notFound else .ok contract

/-- CreateRentContract (contract file lines 250-275) with the external
stages as parameters: client acquisition, call construction, the submitted
call returning the including block hash, and the event check on that
block.  On a fully successful run the function returns identifier 0 because
the Go code has no way to recover the created contract id. -/
def CreateRentContract (getClient : Except String Unit) (newCall : Except String Unit)
    (callRes : Except String Nat) (checkForError : Nat → Except String Unit) :
    Except SubErr Nat :=
  match getClient with
  | .error e => .error (.other e)
  | .ok _ =>
    match newCall with
    | .error e => .error (.other ("failed to create call: " ++ e))
    | .ok _ =>
      match callRes with
      | .error e => .error (.other ("failed to create rent contract: " ++ e))
      | .ok blockHash =>
        match checkForError blockHash with
        | .error e => .error (.other e)
        | .ok _ => .ok 0

/-- CreateNode (node file lines 217-246) with the external stages as
parameters: after a successful submission the returned identifier comes
from the NodeIdByTwinID derived index read keyed by the node's twin id. -/
def CreateNode (node : Node) (index : Nat → Option Nat) (callRes : Except String Nat) :
    Except SubErr Nat :=
  if node.TwinID = 0 then .error (.other "twin id is required")
  else
    match callRes with
    | .error e => .error (.other ("failed to create node: " ++ e))
    | .ok _ => GetNodeByTwinID (index node.TwinID)

/-- UpdateNode (node file lines 250-281) with the external stages as
parameters: the submission result hash is only logged, and the returned
identifier comes from the NodeIdByTwinID derived index read keyed by the
node's twin id. -/
def UpdateNode (node : Node) (index : Nat → Option Nat) (callRes : Except String Nat) :
    Except SubErr Nat :=
  if node.TwinID = 0 then .error (.other "twin id is required")
  else
    match callRes with
    | .error e => .error (.other ("failed to update node: " ++ e))
    | .ok _ => GetNodeByTwinID (index node.TwinID)

/-- A Go string whose compact length prefix stays within four-byte mode
(automatic for any realistic value; bounds the embedding's compact proofs). -/
def strValid (s : GoStr) : Prop := s.length ≤ 1073741823

/-- The canonical values of NodeCertification: exactly one discriminant true. -/
def NodeCertification.Valid (p : NodeCertification) : Prop :=
  (p.IsDiy = true ∧ p.IsCertified = false) ∨ (p.IsDiy = false ∧ p.IsCertified = true)

/-- The canonical values of FarmCertification: exactly one discriminant true. -/
def FarmCertification.Valid (p : FarmCertification) : Prop :=
  (p.isNotCertified = true ∧ p.isGold = false) ∨ (p.isNotCertified = false ∧ p.isGold = true)

/-- The canonical values of Role: exactly one discriminant true. -/
def Role.Valid (r : Role) : Prop :=
  (r.IsNode = true ∧ r.IsGateway = false) ∨ (r.IsNode = false ∧ r.IsGateway = true)

/-- The canonical values of DeletedState: exactly one discriminant true. -/
def DeletedState.Valid (r : DeletedState) : Prop :=
  (r.IsCanceledByUser = true ∧ r.IsOutOfFunds = false) ∨
  (r.IsCanceledByUser = false ∧ r.IsOutOfFunds = true)

/-- The canonical values of ContractState: exactly one discriminant true,
inactive payload fields at their zero values, the nested DeletedState
canonical in the deleted alternative, and the grace-period block number
inside the 64-bit range its Go type guarantees. -/
def ContractState.Valid (r : ContractState) : Prop :=
  (r.IsCreated = true ∧ r.IsDeleted = false ∧ r.IsGracePeriod = false ∧
     r.AsDeleted = ⟨false, false⟩ ∧ r.AsGracePeriodBlockNumber = 0) ∨
  (r.IsCreated = false ∧ r.IsDeleted = true ∧ r.IsGracePeriod = false ∧
     DeletedState.Valid r.AsDeleted ∧ r.AsGracePeriodBlockNumber = 0) ∨
  (r.IsCreated = false ∧ r.IsDeleted = false ∧ r.IsGracePeriod = true ∧
     r.AsDeleted = ⟨false, false⟩ ∧ r.AsGracePeriodBlockNumber < 18446744073709551616)

/-- A PublicIP whose numeric field is inside the 64-bit range its Go type
guarantees and whose strings have in-range lengths. -/
def PublicIP.Valid (p : PublicIP) : Prop :=
  strValid p.IP ∧ strValid p.Gateway ∧ p.ContractID < 18446744073709551616

/-- A NodeContract whose numeric fields are inside the 32-bit range their Go
types guarantee and whose sequences have in-range lengths. -/
def NodeContract.Valid (c : NodeContract) : Prop :=
  c.Node < 4294967296 ∧ strValid c.DeploymentData ∧ strValid c.DeploymentHash ∧
  c.PublicIPsCount < 4294967296 ∧ c.PublicIPs.length ≤ 1073741823 ∧
  ∀ ip ∈ c.PublicIPs, PublicIP.Valid ip

/-- A NameContract whose string has an in-range length. -/
def NameContract.Valid (c : NameContract) : Prop := strValid c.Name

/-- A RentContract whose numeric field is inside the 32-bit range its Go
type guarantees. -/
def RentContract.Valid (c : RentContract) : Prop := c.Node < 4294967296

/-- The canonical values of ContractType: exactly one discriminant true,
the active payload well formed, and the inactive payload structs at their
zero values. -/
def ContractType.Valid (r : ContractType) : Prop :=
  (r.IsNodeContract = true ∧ r.IsNameContract = false ∧ r.IsRentContract = false ∧
     NodeContract.Valid r.NodeContract ∧ r.NameContract = ⟨[]⟩ ∧ r.RentContract = ⟨0⟩) ∨
  (r.IsNodeContract = false ∧ r.IsNameContract = true ∧ r.IsRentContract = false ∧
     NameContract.Valid r.NameContract ∧ r.NodeContract = ⟨0, [], [], 0, []⟩ ∧
     r.RentContract = ⟨0⟩) ∨
  (r.IsNodeContract = false ∧ r.IsNameContract = false ∧ r.IsRentContract = true ∧
     RentContract.Valid r.RentContract ∧ r.NodeContract = ⟨0, [], [], 0, []⟩ ∧
     r.NameContract = ⟨[]⟩)

/-- The number of discriminant flags set on a NodeCertification value. -/
def NodeCertification.discCount (p : NodeCertification) : Nat :=
  (if p.IsDiy then 1 else 0) + (if p.IsCertified then 1 else 0)

/-- The number of discriminant flags set on a FarmCertification value. -/
def FarmCertification.discCount (p : FarmCertification) : Nat :=
  (if p.isNotCertified then 1 else 0) + (if p.isGold then 1 else 0)

/-- The number of discriminant flags set on a Role value. -/
def Role.discCount (r : Role) : Nat :=
  (if r.IsNode then 1 else 0) + (if r.IsGateway then 1 else 0)

/-- The number of discriminant flags set on a DeletedState value. -/
def DeletedState.discCount (r : DeletedState) : Nat :=
  (if r.IsCanceledByUser then 1 else 0) + (if r.IsOutOfFunds then 1 else 0)

/-- The number of discriminant flags set on a ContractState value. -/
def ContractState.discCount (r : ContractState) : Nat :=
  (if r.IsCreated then 1 else 0) + (if r.IsDeleted then 1 else 0) +
  (if r.IsGracePeriod then 1 else 0)

/-- The number of discriminant flags set on a ContractType value. -/
def ContractType.discCount (r : ContractType) : Nat :=
  (if r.IsNodeContract then 1 else 0) + (if r.IsNameContract then 1 else 0) +
  (if r.IsRentContract then 1 else 0)

instance (s : GoStr) : Decidable (strValid s) := by
  unfold strValid; infer_instance

instance (v : NodeCertification) : Decidable v.Valid := by
  unfold NodeCertification.Valid; infer_instance

instance (v : FarmCertification) : Decidable v.Valid := by
  unfold FarmCertification.Valid; infer_instance

instance (v : Role) : Decidable v.Valid := by
  unfold Role.Valid; infer_instance

instance (v : DeletedState) : Decidable v.Valid := by
  unfold DeletedState.Valid; infer_instance

instance (v : ContractState) : Decidable v.Valid := by
  unfold ContractState.Valid; infer_instance

instance (p : PublicIP) : Decidable p.Valid := by
  unfold PublicIP.Valid; infer_instance

instance (c : NodeContract) : Decidable c.Valid := by
  unfold NodeContract.Valid; infer_instance

instance (c : NameContract) : Decidable c.Valid := by
  unfold NameContract.Valid; infer_instance

instance (c : RentContract) : Decidable c.Valid := by
  unfold RentContract.Valid; infer_instance

instance (v : ContractType) : Decidable v.Valid := by
  unfold ContractType.Valid; infer_instance

theorem andThen_ok (a : α) (s : Bytes) (f : α → Bytes → Except String (β × Bytes)) :
    andThen (.ok (a, s)) f = f a s := rfl

theorem readN_append (s rest : Bytes) : readN s.length (s ++ rest) = .ok (s, rest) := by
  rw [readN, if_pos (by simp)]
  simp

theorem decodeU32_rt (v : Nat) (h : v < 4294967296) (rest : Bytes) :
    decodeU32 (encodeU32 v ++ rest) = .ok (v, rest) := by
  simp only [encodeU32, List.cons_append, List.nil_append, decodeU32,
    Except.ok.injEq, Prod.mk.injEq]
  exact ⟨by omega, trivial⟩

theorem decodeU64_rt (v : Nat) (h : v < 18446744073709551616) (rest : Bytes) :
    decodeU64 (encodeU64 v ++ rest) = .ok (v, rest) := by
  simp only [encodeU64, List.cons_append, List.nil_append, decodeU64,
    Except.ok.injEq, Prod.mk.injEq]
  exact ⟨by omega, trivial⟩

theorem decodeCompact_rt (n : Nat) (h : n ≤ 1073741823) (rest : Bytes) :
    decodeCompact (encodeCompact n ++ rest) = .ok (n, rest) := by
  rcases Nat.lt_or_ge n 64 with h1 | h1
  · rw [show encodeCompact n = [n * 4] from by rw [encodeCompact, if_pos (by omega)]]
    simp only [List.cons_append, List.nil_append, decodeCompact]
    rw [if_pos (by omega)]
    simp only [Except.ok.injEq, Prod.mk.injEq]
    exact ⟨by omega, trivial⟩
  · rcases Nat.lt_or_ge n 16384 with h2 | h2
    · rw [show encodeCompact n = [(n * 4 + 1) % 256, (n * 4 + 1) / 256] from by
        rw [encodeCompact, if_neg (by omega), if_pos (by omega)]]
      simp only [List.cons_append, List.nil_append, decodeCompact]
      rw [if_neg (by omega), if_pos (by omega)]
      simp only [Except.ok.injEq, Prod.mk.injEq]
      exact ⟨by omega, trivial⟩
    · rw [show encodeCompact n =
          [(n * 4 + 2) % 256, (n * 4 + 2) / 256 % 256,
           (n * 4 + 2) / 65536 % 256, (n * 4 + 2) / 16777216 % 256] from by
        rw [encodeCompact, if_neg (by omega), if_neg (by omega), if_pos (by omega)]]
      simp only [List.cons_append, List.nil_append, decodeCompact]
      rw [if_neg (by omega), if_neg (by omega), if_pos (by omega)]
      simp only [Except.ok.injEq, Prod.mk.injEq]
      exact ⟨by omega, trivial⟩

theorem decodeStr_rt (str : GoStr) (h : strValid str) (rest : Bytes) :
    decodeStr (encodeStr str ++ rest) = .ok (str, rest) := by
  simp only [decodeStr, encodeStr, List.append_assoc]
  rw [decodeCompact_rt _ h, andThen_ok, readN_append, andThen_ok]

theorem decodeList_rt (dec : Bytes → Except String (α × Bytes)) (enc : α → Bytes)
    (xs : List α) (H : ∀ x ∈ xs, ∀ r, dec (enc x ++ r) = .ok (x, r)) (rest : Bytes) :
    decodeList dec xs.length (concatMap enc xs ++ rest) = .ok (xs, rest) := by
  induction xs with
  | nil => simp [concatMap, decodeList]
  | cons x xs ih =>
    simp only [concatMap, List.length_cons, decodeList, List.append_assoc]
    rw [H x (List.mem_cons_self x xs) (concatMap enc xs ++ rest), andThen_ok,
      ih (fun y hy r => H y (List.mem_cons_of_mem x hy) r), andThen_ok]

theorem decodeVec_rt (dec : Bytes → Except String (α × Bytes)) (enc : α → Bytes)
    (xs : List α) (hlen : xs.length ≤ 1073741823)
    (H : ∀ x ∈ xs, ∀ r, dec (enc x ++ r) = .ok (x, r)) (rest : Bytes) :
    decodeVec dec (encodeVec enc xs ++ rest) = .ok (xs, rest) := by
  simp only [decodeVec, encodeVec, List.append_assoc]
  rw [decodeCompact_rt _ hlen, andThen_ok]
  exact decodeList_rt dec enc xs H rest

theorem nodeCertificationDecode_rt (v : NodeCertification) (h : v.Valid) (rest : Bytes) :
    NodeCertification.Decode (NodeCertification.Encode v ++ rest) = .ok (v, rest) := by
  obtain ⟨d, c⟩ := v
  rcases h with ⟨h1, h2⟩ | ⟨h1, h2⟩ <;> subst h1 <;> subst h2 <;>
    simp [NodeCertification.Encode, NodeCertification.Decode, readOneByte, andThen]

theorem farmCertificationDecode_rt (v : FarmCertification) (h : v.Valid) (rest : Bytes) :
    FarmCertification.Decode (FarmCertification.Encode v ++ rest) = .ok (v, rest) := by
  obtain ⟨d, c⟩ := v
  rcases h with ⟨h1, h2⟩ | ⟨h1, h2⟩ <;> subst h1 <;> subst h2 <;>
    simp [FarmCertification.Encode, FarmCertification.Decode, readOneByte, andThen]

theorem roleDecode_rt (v : Role) (h : v.Valid) (rest : Bytes) :
    Role.Decode (Role.Encode v ++ rest) = .ok (v, rest) := by
  obtain ⟨d, c⟩ := v
  rcases h with ⟨h1, h2⟩ | ⟨h1, h2⟩ <;> subst h1 <;> subst h2 <;>
    simp [Role.Encode, Role.Decode, readOneByte, andThen]

theorem deletedStateDecode_rt (v : DeletedState) (h : v.Valid) (rest : Bytes) :
    DeletedState.Decode (DeletedState.Encode v ++ rest) = .ok (v, rest) := by
  obtain ⟨d, c⟩ := v
  rcases h with ⟨h1, h2⟩ | ⟨h1, h2⟩ <;> subst h1 <;> subst h2 <;>
    simp [DeletedState.Encode, DeletedState.Decode, readOneByte, andThen]

theorem contractStateDecode_rt (v : ContractState) (h : v.Valid) (rest : Bytes) :
    ContractState.Decode (ContractState.Encode v ++ rest) = .ok (v, rest) := by
  obtain ⟨c, d, ad, g, gn⟩ := v
  rcases h with ⟨h1, h2, h3, h4, h5⟩ | ⟨h1, h2, h3, h4, h5⟩ | ⟨h1, h2, h3, h4, h5⟩
  · subst h1; subst h2; subst h3; subst h4; subst h5
    simp [ContractState.Encode, ContractState.Decode, readOneByte, andThen]
  · subst h1; subst h2; subst h3; subst h5
    simp only [ContractState.Encode, Bool.false_eq_true, if_false, if_true,
      List.cons_append, ContractState.Decode, readOneByte, andThen]
    rw [deletedStateDecode_rt ad h4 rest]
    simp
  · subst h1; subst h2; subst h3; subst h4
    simp only [ContractState.Encode, Bool.false_eq_true, if_false, if_true,
      List.cons_append, ContractState.Decode, readOneByte, andThen]
    rw [decodeU64_rt gn h5 rest]
    simp

theorem publicIPDecode_rt (p : PublicIP) (h : p.Valid) (rest : Bytes) :
    PublicIP.Decode (PublicIP.Encode p ++ rest) = .ok (p, rest) := by
  obtain ⟨ip, gw, cid⟩ := p
  obtain ⟨h1, h2, h3⟩ := h
  simp only [PublicIP.Encode, PublicIP.Decode, List.append_assoc]
  rw [decodeStr_rt _ h1, andThen_ok, decodeStr_rt _ h2, andThen_ok,
    decodeU64_rt _ h3, andThen_ok]

theorem nodeContractDecode_rt (c : NodeContract) (h : c.Valid) (rest : Bytes) :
    NodeContract.Decode (NodeContract.Encode c ++ rest) = .ok (c, rest) := by
  obtain ⟨node, dd, dh, cnt, ips⟩ := c
  obtain ⟨h1, h2, h3, h4, h5, h6⟩ := h
  simp only [NodeContract.Encode, NodeContract.Decode, List.append_assoc]
  rw [decodeU32_rt _ h1, andThen_ok, decodeStr_rt _ h2, andThen_ok,
    decodeStr_rt _ h3, andThen_ok, decodeU32_rt _ h4, andThen_ok,
    decodeVec_rt PublicIP.Decode PublicIP.Encode ips h5
      (fun ip hip r => publicIPDecode_rt ip (h6 ip hip) r) rest, andThen_ok]

theorem nameContractDecode_rt (c : NameContract) (h : c.Valid) (rest : Bytes) :
    NameContract.Decode (NameContract.Encode c ++ rest) = .ok (c, rest) := by
  obtain ⟨n⟩ := c
  simp only [NameContract.Encode, NameContract.Decode]
  rw [decodeStr_rt _ h, andThen_ok]

theorem rentContractDecode_rt (c : RentContract) (h : c.Valid) (rest : Bytes) :
    RentContract.Decode (RentContract.Encode c ++ rest) = .ok (c, rest) := by
  obtain ⟨n⟩ := c
  simp only [RentContract.Encode, RentContract.Decode]
  rw [decodeU32_rt _ h, andThen_ok]

theorem contractTypeDecode_rt (v : ContractType) (h : v.Valid) (rest : Bytes) :
    ContractType.Decode (ContractType.Encode v ++ rest) = .ok (v, rest) := by
  obtain ⟨bn, nc, bm, mc, br, rc⟩ := v
  rcases h with ⟨h1, h2, h3, h4, h5, h6⟩ | ⟨h1, h2, h3, h4, h5, h6⟩ | ⟨h1, h2, h3, h4, h5, h6⟩ <;>
    subst h1 <;> subst h2 <;> subst h3 <;> subst h5 <;> subst h6
  · simp only [ContractType.Encode, Bool.false_eq_true, if_false, if_true,
      List.cons_append, ContractType.Decode, readOneByte, andThen]
    rw [nodeContractDecode_rt nc h4 rest]
  · simp only [ContractType.Encode, Bool.false_eq_true, if_false, if_true,
      List.cons_append, ContractType.Decode, readOneByte, andThen]
    rw [nameContractDecode_rt mc h4 rest]
    simp
  · simp only [ContractType.Encode, Bool.false_eq_true, if_false, if_true,
      List.cons_append, ContractType.Decode, readOneByte, andThen]
    rw [rentContractDecode_rt rc h4 rest]
    simp

theorem nodeCertificationDecode_discCount (s rest : Bytes) (v : NodeCertification)
    (h : NodeCertification.Decode s = .ok (v, rest)) : v.discCount = 1 := by
  rcases s with _ | ⟨b, s1⟩
  · simp [NodeCertification.Decode, readOneByte, andThen] at h
  · rcases b with _ | _ | b <;>
      simp [NodeCertification.Decode, readOneByte, andThen] at h
    · obtain ⟨h1, h2⟩ := h; subst h1; decide
    · obtain ⟨h1, h2⟩ := h; subst h1; decide

theorem farmCertificationDecode_discCount (s rest : Bytes) (v : FarmCertification)
    (h : FarmCertification.Decode s = .ok (v, rest)) : v.discCount = 1 := by
  rcases s with _ | ⟨b, s1⟩
  · simp [FarmCertification.Decode, readOneByte, andThen] at h
  · rcases b with _ | _ | b <;>
      simp [FarmCertification.Decode, readOneByte, andThen] at h
    · obtain ⟨h1, h2⟩ := h; subst h1; decide
    · obtain ⟨h1, h2⟩ := h; subst h1; decide

theorem roleDecode_discCount (s rest : Bytes) (v : Role)
    (h : Role.Decode s = .ok (v, rest)) : v.discCount = 1 := by
  rcases s with _ | ⟨b, s1⟩
  · simp [Role.Decode, readOneByte, andThen] at h
  · rcases b with _ | _ | b <;>
      simp [Role.Decode, readOneByte, andThen] at h
    · obtain ⟨h1, h2⟩ := h; subst h1; decide
    · obtain ⟨h1, h2⟩ := h; subst h1; decide

theorem deletedStateDecode_discCount (s rest : Bytes) (v : DeletedState)
    (h : DeletedState.Decode s = .ok (v, rest)) : v.discCount ≤ 1 := by
  rcases s with _ | ⟨b, s1⟩
  · simp [DeletedState.Decode, readOneByte, andThen] at h
  · rcases b with _ | _ | _ | b <;>
      simp [DeletedState.Decode, readOneByte, andThen] at h
    · obtain ⟨h1, h2⟩ := h; subst h1; decide
    · obtain ⟨h1, h2⟩ := h; subst h1; decide
    · obtain ⟨h1, h2⟩ := h; subst h1; decide

theorem contractStateDecode_discCount (s rest : Bytes) (v : ContractState)
    (h : ContractState.Decode s = .ok (v, rest)) : v.discCount = 1 := by
  rcases s with _ | ⟨b, s1⟩
  · simp [ContractState.Decode, readOneByte, andThen] at h
  · rcases b with _ | _ | _ | b <;>
      simp only [ContractState.Decode, readOneByte, andThen] at h
    · simp at h; obtain ⟨h1, h2⟩ := h; subst h1; decide
    · simp only [show (1 : Nat) ≠ 0 from by omega, if_neg, if_pos, reduceIte] at h
      cases hd : DeletedState.Decode s1 with
      | error e => rw [hd] at h; simp at h
      | ok p =>
        obtain ⟨d, s2⟩ := p
        rw [hd] at h; simp at h; obtain ⟨h1, h2⟩ := h; subst h1; rfl
    · simp only [show (2 : Nat) ≠ 0 from by omega, show (2 : Nat) ≠ 1 from by omega,
        if_neg, if_pos, reduceIte] at h
      cases hd : decodeU64 s1 with
      | error e => rw [hd] at h; simp at h
      | ok p =>
        obtain ⟨n, s2⟩ := p
        rw [hd] at h; simp at h; obtain ⟨h1, h2⟩ := h; subst h1; rfl
    · simp at h

theorem contractTypeDecode_discCount (s rest : Bytes) (v : ContractType)
    (h : ContractType.Decode s = .ok (v, rest)) : v.discCount = 1 := by
  rcases s with _ | ⟨b, s1⟩
  · simp [ContractType.Decode, readOneByte, andThen] at h
  · rcases b with _ | _ | _ | b <;>
      simp only [ContractType.Decode, readOneByte, andThen] at h
    · simp only [reduceIte] at h
      cases hd : NodeContract.Decode s1 with
      | error e => rw [hd] at h; simp [andThen] at h
      | ok p =>
        obtain ⟨nc, s2⟩ := p
        rw [hd] at h; simp [andThen] at h; obtain ⟨h1, h2⟩ := h; subst h1; rfl
    · simp only [reduceIte] at h
      cases hd : NameContract.Decode s1 with
      | error e => rw [hd] at h; simp [andThen] at h
      | ok p =>
        obtain ⟨mc, s2⟩ := p
        rw [hd] at h; simp [andThen] at h; obtain ⟨h1, h2⟩ := h; subst h1; rfl
    · simp only [reduceIte] at h
      cases hd : RentContract.Decode s1 with
      | error e => rw [hd] at h; simp [andThen] at h
      | ok p =>
        obtain ⟨rc, s2⟩ := p
        rw [hd] at h; simp [andThen] at h; obtain ⟨h1, h2⟩ := h; subst h1; rfl
    · simp at h

/-- Whether a fetch result is the UnknownVersion error. -/
def isUnknownVersion (r : Except SubErr α) : Bool :=
  match r with
  | .error .unknownVersion => true
  | _ => false

/-- C1 (amended): for every tagged-variant type — NodeCertification,
FarmCertification, Role, DeletedState, ContractState, ContractType — and
every canonical value v (exactly one discriminant true at every level,
inactive payload fields at their zero values, numeric payloads inside
their machine width), decoding the bytes produced by encoding v yields v
back together with any trailing bytes, reproducing all outer and inner
discriminants and payloads exactly. -/
theorem claim1_roundtrip_canonical :
    (∀ (v : NodeCertification) (rest : Bytes), v.Valid →
        NodeCertification.Decode (NodeCertification.Encode v ++ rest) = .ok (v, rest)) ∧
    (∀ (v : FarmCertification) (rest : Bytes), v.Valid →
        FarmCertification.Decode (FarmCertification.Encode v ++ rest) = .ok (v, rest)) ∧
    (∀ (v : Role) (rest : Bytes), v.Valid →
        Role.Decode (Role.Encode v ++ rest) = .ok (v, rest)) ∧
    (∀ (v : DeletedState) (rest : Bytes), v.Valid →
        DeletedState.Decode (DeletedState.Encode v ++ rest) = .ok (v, rest)) ∧
    (∀ (v : ContractState) (rest : Bytes), v.Valid →
        ContractState.Decode (ContractState.Encode v ++ rest) = .ok (v, rest)) ∧
    (∀ (v : ContractType) (rest : Bytes), v.Valid →
        ContractType.Decode (ContractType.Encode v ++ rest) = .ok (v, rest)) :=
  ⟨fun v rest h => nodeCertificationDecode_rt v h rest,
   fun v rest h => farmCertificationDecode_rt v h rest,
   fun v rest h => roleDecode_rt v h rest,
   fun v rest h => deletedStateDecode_rt v h rest,
   fun v rest h => contractStateDecode_rt v h rest,
   fun v rest h => contractTypeDecode_rt v h rest⟩

/-- C1 counterexample to the claim as stated: the ContractState value with
IsCreated true and a nonzero grace-period payload has exactly one
discriminant true, yet decode of its encoding returns a different value
(the stale payload byte is not reproduced), so decode(encode(v)) = v fails
for it. -/
theorem claim1_counterexample :
    ContractState.discCount ⟨true, false, ⟨false, false⟩, false, 1⟩ = 1 ∧
    ContractState.Decode (ContractState.Encode ⟨true, false, ⟨false, false⟩, false, 1⟩) =
      .ok (⟨true, false, ⟨false, false⟩, false, 0⟩, []) ∧
    decide ((⟨true, false, ⟨false, false⟩, false, 0⟩ : ContractState) =
      ⟨true, false, ⟨false, false⟩, false, 1⟩) = false := by
  refine ⟨rfl, rfl, rfl⟩

/-- C1 witness: the amended round-trip instantiated at one canonical value
of each variant family, including the nested deleted contract state with an
out-of-funds reason and a node contract with a live payload. -/
theorem claim1_witness :
    NodeCertification.Decode (NodeCertification.Encode ⟨true, false⟩ ++ []) =
      .ok (⟨true, false⟩, []) ∧
    FarmCertification.Decode (FarmCertification.Encode ⟨false, true⟩ ++ []) =
      .ok (⟨false, true⟩, []) ∧
    Role.Decode (Role.Encode ⟨false, true⟩ ++ []) = .ok (⟨false, true⟩, []) ∧
    DeletedState.Decode (DeletedState.Encode ⟨false, true⟩ ++ []) =
      .ok (⟨false, true⟩, []) ∧
    ContractState.Decode (ContractState.Encode ⟨false, true, ⟨false, true⟩, false, 0⟩ ++ []) =
      .ok (⟨false, true, ⟨false, true⟩, false, 0⟩, []) ∧
    ContractType.Decode
        (ContractType.Encode ⟨true, ⟨5, [1, 2], [3, 4], 1, [⟨[7], [8], 9⟩]⟩,
          false, ⟨[]⟩, false, ⟨0⟩⟩ ++ []) =
      .ok (⟨true, ⟨5, [1, 2], [3, 4], 1, [⟨[7], [8], 9⟩]⟩, false, ⟨[]⟩, false, ⟨0⟩⟩, []) :=
  ⟨claim1_roundtrip_canonical.1 _ [] (by decide),
   claim1_roundtrip_canonical.2.1 _ [] (by decide),
   claim1_roundtrip_canonical.2.2.1 _ [] (by decide),
   claim1_roundtrip_canonical.2.2.2.1 _ [] (by decide),
   claim1_roundtrip_canonical.2.2.2.2.1 _ [] (by decide),
   claim1_roundtrip_canonical.2.2.2.2.2 _ [] (by decide)⟩

/-- C2: for each version-dispatched record kind, decoding a nonempty buffer
whose leading version byte is outside its supported set (Entity: only 1;
Node: 0, 1, 2; Farm: 1, 2, 3) fails with UnknownVersion for every possible
remainder of the buffer, so no structural decode of the fields is ever
reached in that case. -/
theorem claim2_version_gate (v : Nat) (rest : Bytes) :
    (v ≠ 1 → GetEntity (v :: rest) = .error .unknownVersion) ∧
    (¬(v = 0 ∨ v = 1 ∨ v = 2) → getNode (v :: rest) = .error .unknownVersion) ∧
    (¬(v = 1 ∨ v = 2 ∨ v = 3) → GetFarm (v :: rest) = .error .unknownVersion) := by
  refine ⟨fun h => ?_, fun h => ?_, fun h => ?_⟩ <;>
    simp [GetEntity, getNode, GetFarm, getVersion, h]

/-- C2 witness: unsupported version bytes rejected for each record kind,
with remainders that would not even parse structurally. -/
theorem claim2_witness :
    GetEntity (7 :: [1, 2, 3]) = .error .unknownVersion ∧
    getNode (9 :: []) = .error .unknownVersion ∧
    GetFarm (4 :: [0]) = .error .unknownVersion :=
  ⟨(claim2_version_gate 7 [1, 2, 3]).1 (by decide),
   (claim2_version_gate 9 []).2.1 (by decide),
   (claim2_version_gate 4 [0]).2.2 (by decide)⟩

/-- C3 (amended): whenever Decode succeeds for a tagged-variant type, the
result has exactly one discriminant set for NodeCertification,
FarmCertification, Role, ContractState and ContractType; for DeletedState
at most one discriminant is set, because the reserved discriminant byte 2
is accepted by an empty switch case and leaves every flag false. -/
theorem claim3_discriminants_after_decode (s rest : Bytes) :
    (∀ v : NodeCertification, NodeCertification.Decode s = .ok (v, rest) → v.discCount = 1) ∧
    (∀ v : FarmCertification, FarmCertification.Decode s = .ok (v, rest) → v.discCount = 1) ∧
    (∀ v : Role, Role.Decode s = .ok (v, rest) → v.discCount = 1) ∧
    (∀ v : ContractState, ContractState.Decode s = .ok (v, rest) → v.discCount = 1) ∧
    (∀ v : ContractType, ContractType.Decode s = .ok (v, rest) → v.discCount = 1) ∧
    (∀ v : DeletedState, DeletedState.Decode s = .ok (v, rest) → v.discCount ≤ 1) :=
  ⟨fun v h => nodeCertificationDecode_discCount s rest v h,
   fun v h => farmCertificationDecode_discCount s rest v h,
   fun v h => roleDecode_discCount s rest v h,
   fun v h => contractStateDecode_discCount s rest v h,
   fun v h => contractTypeDecode_discCount s rest v h,
   fun v h => deletedStateDecode_discCount s rest v h⟩

/-- C3 counterexample to the claim as stated: DeletedState.Decode succeeds
on the byte 2 yet returns the value with zero discriminants set, so a
successful decode does not always set exactly one discriminant. -/
theorem claim3_counterexample :
    DeletedState.Decode [2] = .ok (⟨false, false⟩, []) ∧
    DeletedState.discCount ⟨false, false⟩ = 0 :=
  ⟨rfl, rfl⟩

/-- C3 witness: the amended statement instantiated on concrete buffers for
each variant family. -/
theorem claim3_witness :
    NodeCertification.discCount ⟨true, false⟩ = 1 ∧
    FarmCertification.discCount ⟨false, true⟩ = 1 ∧
    Role.discCount ⟨true, false⟩ = 1 ∧
    ContractState.discCount ⟨false, false, ⟨false, false⟩, true, 3⟩ = 1 ∧
    ContractType.discCount ⟨false, ⟨0, [], [], 0, []⟩, false, ⟨[]⟩, true, ⟨6⟩⟩ = 1 ∧
    DeletedState.discCount ⟨true, false⟩ ≤ 1 :=
  ⟨(claim3_discriminants_after_decode [0] [] ).1 ⟨true, false⟩ rfl,
   (claim3_discriminants_after_decode [1] []).2.1 ⟨false, true⟩ rfl,
   (claim3_discriminants_after_decode [0] []).2.2.1 ⟨true, false⟩ rfl,
   (claim3_discriminants_after_decode [2, 3, 0, 0, 0, 0, 0, 0, 0] []).2.2.2.1
     ⟨false, false, ⟨false, false⟩, true, 3⟩ rfl,
   (claim3_discriminants_after_decode [2, 6, 0, 0, 0] []).2.2.2.2.1
     ⟨false, ⟨0, [], [], 0, []⟩, false, ⟨[]⟩, true, ⟨6⟩⟩ rfl,
   (claim3_discriminants_after_decode [0] []).2.2.2.2.2 ⟨true, false⟩ rfl⟩

/-- C4: for every tagged-variant type, decoding a buffer whose discriminant
byte is outside that variant's known set fails with the decode error the
source raises for that family, for every remainder, and never succeeds by
defaulting to any alternative. -/
theorem claim4_unknown_discriminant_rejected (b : Nat) (rest : Bytes) :
    (2 ≤ b → NodeCertification.Decode (b :: rest) =
        .error ("unknown NodeCertification value " ++ toString b)) ∧
    (2 ≤ b → FarmCertification.Decode (b :: rest) = .error "unknown FarmCertification value") ∧
    (2 ≤ b → Role.Decode (b :: rest) = .error "unknown CertificateType value") ∧
    (3 ≤ b → DeletedState.Decode (b :: rest) = .error "unknown deleted state value") ∧
    (3 ≤ b → ContractState.Decode (b :: rest) = .error "unknown ContractState value") ∧
    (3 ≤ b → ContractType.Decode (b :: rest) = .error "unknown contract type value") := by
  refine ⟨fun h => ?_, fun h => ?_, fun h => ?_, fun h => ?_, fun h => ?_, fun h => ?_⟩
  · simp [NodeCertification.Decode, readOneByte, andThen,
      show b ≠ 0 by omega, show b ≠ 1 by omega]
  · simp [FarmCertification.Decode, readOneByte, andThen,
      show b ≠ 0 by omega, show b ≠ 1 by omega]
  · simp [Role.Decode, readOneByte, andThen,
      show b ≠ 0 by omega, show b ≠ 1 by omega]
  · simp [DeletedState.Decode, readOneByte, andThen,
      show b ≠ 0 by omega, show b ≠ 1 by omega, show b ≠ 2 by omega]
  · simp [ContractState.Decode, readOneByte, andThen,
      show b ≠ 0 by omega, show b ≠ 1 by omega, show b ≠ 2 by omega]
  · simp [ContractType.Decode, readOneByte, andThen,
      show b ≠ 0 by omega, show b ≠ 1 by omega, show b ≠ 2 by omega]

/-- C4 witness: discriminant byte 5 rejected by every variant family even
with leftover bytes that could decode as a payload. -/
theorem claim4_witness :
    NodeCertification.Decode (5 :: [0]) =
      .error ("unknown NodeCertification value " ++ toString 5) ∧
    FarmCertification.Decode (5 :: [0]) = .error "unknown FarmCertification value" ∧
    Role.Decode (5 :: [0]) = .error "unknown CertificateType value" ∧
    DeletedState.Decode (5 :: [0]) = .error "unknown deleted state value" ∧
    ContractState.Decode (5 :: [0]) = .error "unknown ContractState value" ∧
    ContractType.Decode (5 :: [0]) = .error "unknown contract type value" :=
  ⟨(claim4_unknown_discriminant_rejected 5 [0]).1 (by decide),
   (claim4_unknown_discriminant_rejected 5 [0]).2.1 (by decide),
   (claim4_unknown_discriminant_rejected 5 [0]).2.2.1 (by decide),
   (claim4_unknown_discriminant_rejected 5 [0]).2.2.2.1 (by decide),
   (claim4_unknown_discriminant_rejected 5 [0]).2.2.2.2.1 (by decide),
   (claim4_unknown_discriminant_rejected 5 [0]).2.2.2.2.2 (by decide)⟩

/-- C5: for every record kind, fetching a record whose raw storage read
returned a zero-length buffer yields the NotFound error, never a decode
error and never a default-valued record. -/
theorem claim5_empty_buffer_notFound :
    GetEntity [] = .error .notFound ∧ getNode [] = .error .notFound ∧
    GetFarm [] = .error .notFound ∧ getContract [] = .error .notFound :=
  ⟨rfl, rfl, rfl, rfl⟩

/-- C6: every derived-index lookup that resolves to the identifier 0, or
whose key is absent, returns NotFound rather than treating 0 as a valid
identifier. -/
theorem claim6_zero_sentinel_notFound (stored : Option Nat)
    (h : stored = none ∨ stored = some 0) :
    GetNodeByTwinID stored = .error .notFound ∧
    GetContractWithHash stored = .error .notFound ∧
    GetContractIDByNameRegistration stored = .error .notFound := by
  rcases h with rfl | rfl <;> exact ⟨rfl, rfl, rfl⟩

/-- C6 witness: both the absent key and the stored zero map to NotFound in
all three derived-index lookups. -/
theorem claim6_witness :
    (GetNodeByTwinID none = .error .notFound ∧
     GetContractWithHash none = .error .notFound ∧
     GetContractIDByNameRegistration none = .error .notFound) ∧
    (GetNodeByTwinID (some 0) = .error .notFound ∧
     GetContractWithHash (some 0) = .error .notFound ∧
     GetContractIDByNameRegistration (some 0) = .error .notFound) :=
  ⟨claim6_zero_sentinel_notFound none (Or.inl rfl),
   claim6_zero_sentinel_notFound (some 0) (Or.inr rfl)⟩

/-- C7: getContract performs no version dispatch: it can never return
UnknownVersion on any buffer, and a nonempty buffer proceeds directly to
structural decode — witnessed by a contract record with the version byte 9,
which no other record kind would accept, decoding successfully. -/
theorem claim7_contract_no_version_gate :
    (∀ raw : Bytes, isUnknownVersion (getContract raw) = false) ∧
    getContract [9, 0, 7, 0, 0, 0, 0, 0, 0, 0, 3, 0, 0, 0, 1, 8, 104, 105] =
      .ok ⟨9, ⟨true, false, ⟨false, false⟩, false, 0⟩, 7, 3,
           ⟨false, ⟨0, [], [], 0, []⟩, true, ⟨[104, 105]⟩, false, ⟨0⟩⟩⟩ := by
  constructor
  · intro raw
    unfold getContract
    split
    · rfl
    · split <;> rfl
  · rfl

/-- C8: the rent-contract creation path never recovers the new contract's
identifier: whenever client acquisition, call construction, submission and
the event check all succeed, CreateRentContract returns identifier 0 with
no error. -/
theorem claim8_rent_contract_returns_zero (getClient newCall : Except String Unit)
    (callRes : Except String Nat) (checkForError : Nat → Except String Unit)
    (blockHash : Nat) (hg : getClient = .ok ()) (hn : newCall = .ok ())
    (hc : callRes = .ok blockHash) (he : checkForError blockHash = .ok ()) :
    CreateRentContract getClient newCall callRes checkForError = .ok 0 := by
  subst hg; subst hn; subst hc
  simp [CreateRentContract, he]

/-- C8 witness: a fully successful rent-contract submission returning the
sentinel identifier 0 and no error. -/
theorem claim8_witness :
    CreateRentContract (.ok ()) (.ok ()) (.ok 5) (fun _ => .ok ()) = .ok 0 :=
  claim8_rent_contract_returns_zero _ _ _ _ 5 rfl rfl rfl rfl

/-- C9: for every successfully submitted node-creation or node-update call,
the returned identifier is exactly the result of the follow-up derived
index read keyed by the twin id supplied in the call, and it does not
depend on the submission result (which carries only a block hash). -/
theorem claim9_node_id_from_twin_index (node : Node) (index : Nat → Option Nat)
    (blockHashA blockHashB : Nat) (ht : node.TwinID ≠ 0) :
    CreateNode node index (.ok blockHashA) = GetNodeByTwinID (index node.TwinID) ∧
    UpdateNode node index (.ok blockHashA) = GetNodeByTwinID (index node.TwinID) ∧
    CreateNode node index (.ok blockHashA) = CreateNode node index (.ok blockHashB) ∧
    UpdateNode node index (.ok blockHashA) = UpdateNode node index (.ok blockHashB) := by
  refine ⟨?_, ?_, ?_, ?_⟩ <;> simp [CreateNode, UpdateNode, ht]

/-- C9 witness: a node with twin id 7; creation and update both return the
value of the derived-index read at key 7, independent of the block hash. -/
theorem claim9_witness :
    CreateNode
        ⟨0, 0, 0, 7, ⟨0, 0, 0, 0⟩, ⟨[], []⟩, [], [], ⟨false, ⟨[], [], [], [], []⟩⟩,
         0, 0, [], ⟨false, false⟩⟩ (fun t => some t) (.ok 11) =
      GetNodeByTwinID (some 7) ∧
    UpdateNode
        ⟨0, 0, 0, 7, ⟨0, 0, 0, 0⟩, ⟨[], []⟩, [], [], ⟨false, ⟨[], [], [], [], []⟩⟩,
         0, 0, [], ⟨false, false⟩⟩ (fun t => some t) (.ok 11) =
      GetNodeByTwinID (some 7) :=
  ⟨(claim9_node_id_from_twin_index _ (fun t => some t) 11 11 (by decide)).1,
   (claim9_node_id_from_twin_index _ (fun t => some t) 11 11 (by decide)).2.1⟩

/-- C10: for every tagged-variant value with no discriminant set (the
all-false struct, whatever its payload fields hold), Encode succeeds and
writes zero bytes — neither a discriminant byte nor a payload. -/
theorem claim10_allfalse_encodes_nothing
    (p1 : NodeCertification) (p2 : FarmCertification) (p3 : Role) (p4 : DeletedState)
    (p5 : ContractState) (p6 : ContractType)
    (h1 : p1.IsDiy = false) (h2 : p1.IsCertified = false)
    (h3 : p2.isNotCertified = false) (h4 : p2.isGold = false)
    (h5 : p3.IsNode = false) (h6 : p3.IsGateway = false)
    (h7 : p4.IsCanceledByUser = false) (h8 : p4.IsOutOfFunds = false)
    (h9 : p5.IsCreated = false) (h10 : p5.IsDeleted = false) (h11 : p5.IsGracePeriod = false)
    (h12 : p6.IsNodeContract = false) (h13 : p6.IsNameContract = false)
    (h14 : p6.IsRentContract = false) :
    NodeCertification.Encode p1 = [] ∧ FarmCertification.Encode p2 = [] ∧
    Role.Encode p3 = [] ∧ DeletedState.Encode p4 = [] ∧
    ContractState.Encode p5 = [] ∧ ContractType.Encode p6 = [] := by
  simp [NodeCertification.Encode, FarmCertification.Encode, Role.Encode,
    DeletedState.Encode, ContractState.Encode, ContractType.Encode,
    h1, h2, h3, h4, h5, h6, h7, h8, h9, h10, h11, h12, h13, h14]

/-- C10 witness: concrete all-false variants — including ones holding
nonzero payload fields — encode to the empty byte string. -/
theorem claim10_witness :
    NodeCertification.Encode ⟨false, false⟩ = [] ∧
    FarmCertification.Encode ⟨false, false⟩ = [] ∧
    Role.Encode ⟨false, false⟩ = [] ∧
    DeletedState.Encode ⟨false, false⟩ = [] ∧
    ContractState.Encode ⟨false, false, ⟨false, false⟩, false, 5⟩ = [] ∧
    ContractType.Encode ⟨false, ⟨1, [2], [], 0, []⟩, false, ⟨[3]⟩, false, ⟨4⟩⟩ = [] :=
  claim10_allfalse_encodes_nothing _ _ _ _ _ _
    rfl rfl rfl rfl rfl rfl rfl rfl rfl rfl rfl rfl rfl rfl

end Substrate
